import Mathlib

/-!
Shallow embedding of the lifeos-backend document-ingestion pipeline.

Sources embedded:
- controllers/documentController.js (src/unnamed/part_001): uploadDocument
- services/aiService.js: analyzeDocument, calculatePriority
- services/ocrService.js: extractTextFromImage

Modelling conventions:
- Times are integers counting milliseconds (UTC; JS Date arithmetic with
  setDate(n-7)/setDate(n-30) is 7/30 whole days in milliseconds outside DST,
  which is out of scope here). A single value of the clock is used per
  request, standing for the several new Date() calls of one run.
- JS null/undefined fields are Option.none; JS falsiness on numbers is
  "equal to 0", on strings "empty".
- External effects (Tesseract recognition, the Gemini call, JSON.parse,
  Mongo saves, the filesystem) are passed in explicitly: recognizer and
  backend outcomes as Except values, JSON.parse as an abstract parse
  function, save outcomes as injected booleans, and the file store as the
  list of existing paths inside the state.
-/

namespace LifeOS

/-- Milliseconds in one day, the divisor 1000*60*60*24 of aiService.js. -/
def msPerDay : Int := 86400000

/-- JS Math.ceil (x / d) for positive d, on integers. -/
def jsCeilDiv (x d : Int) : Int := -((-x).fdiv d)

/-- JS string defaulting `v || dflt` for an optional string: the empty
string is falsy, everything else truthy. -/
def orElseStr (v : Option String) (dflt : String) : String :=
  match v with
  | some s => if s = "" then dflt else s
  | none => dflt

/-- JS `v || null` on an optional string field. -/
def orNullStr (v : Option String) : Option String :=
  match v with
  | some s => if s = "" then none else some s
  | none => none

/-- JS `v || null` on an optional numeric field: 0 is falsy and becomes
null. -/
def orNullInt (v : Option Int) : Option Int :=
  match v with
  | some n => if n = 0 then none else some n
  | none => none

/-- JS template-literal rendering of a possibly-undefined string field. -/
def jsShowOpt (v : Option String) : String := v.getD "undefined"

/-- The fields of the analysis object produced by analyzeDocument
(aiService.js): every field may be absent. Date fields carry the
millisecond timestamp of the parsed YYYY-MM-DD date (a present date string
is nonempty, hence truthy in JS). -/
structure Analysis where
  documentType : Option String
  category : Option String
  dueDate : Option Int
  expiryDate : Option Int
  issueDate : Option Int
  amount : Option Int
  idNumber : Option String
  provider : Option String
  priority : Option String
  summary : Option String
deriving DecidableEq

/-- Splits a character list into its maximal whitespace-free runs; `acc`
holds the reversed current run. -/
def wsTokensAux (acc : List Char) : List Char → List (List Char)
  | [] => if acc.isEmpty then [] else [acc.reverse]
  | c :: cs =>
    if c.isWhitespace then
      if acc.isEmpty then wsTokensAux [] cs else acc.reverse :: wsTokensAux [] cs
    else wsTokensAux (c :: acc) cs

/-- Joins runs with single spaces. -/
def joinSpace : List (List Char) → List Char
  | [] => []
  | [t] => t
  | t :: t2 :: ts => t ++ ' ' :: joinSpace (t2 :: ts)

/-- Whitespace normalisation of ocrService.js:
text.replace(/\s+/g, " ").trim(), i.e. every maximal whitespace run
becomes one space and the ends are trimmed — equivalently, the
whitespace-separated tokens joined by single spaces (whitespace per
Char.isWhitespace; the regex \s class restricted to its ASCII part). -/
def cleanText (s : String) : String :=
  String.mk (joinSpace (wsTokensAux [] s.data))

/-- extractTextFromImage of ocrService.js. `fileEx` is fs.existsSync on
the path, `recognize` the outcome of Tesseract.recognize. Every throw
inside the try lands in the catch, which rethrows with the
"Failed to extract text from image: " prefix. An empty cleaned result is
only warned about and still returned. -/
def extractTextFromImage (imagePath : String) (fileEx : Bool)
    (recognize : Except String String) : Except String String :=
  if !fileEx then
    Except.error ("Failed to extract text from image: " ++
      ("Image file not found at path: " ++ imagePath))
  else
    match recognize with
    | Except.error e => Except.error ("Failed to extract text from image: " ++ e)
    | Except.ok raw => Except.ok (cleanText raw)

/-- The default analysis returned by analyzeDocument's outer catch
(missing GEMINI_API_KEY, or backend error). -/
def aiErrorDefault : Analysis :=
  { documentType := some "other", category := some "Personal",
    dueDate := none, expiryDate := none, issueDate := none,
    amount := none, idNumber := none, provider := none,
    priority := some "MEDIUM",
    summary := some "Document uploaded - AI analysis failed" }

/-- The default analysis returned by analyzeDocument's inner catch (no
JSON object found in the response, or JSON.parse failed). -/
def aiParseDefault : Analysis :=
  { documentType := some "other", category := some "Personal",
    dueDate := none, expiryDate := none, issueDate := none,
    amount := none, idNumber := none, provider := none,
    priority := some "MEDIUM",
    summary := some "Document uploaded - manual review needed" }

/-- The greedy regex match of aiService.js: the slice of the response from
the first opening brace to the last closing brace, when that span is
nonempty; otherwise no match. Char.ofNat 123 and 125 are the two braces. -/
def jsonMatch (s : String) : Option String :=
  let cs := s.data
  match cs.findIdx? (fun c => c == Char.ofNat 123),
        cs.reverse.findIdx? (fun c => c == Char.ofNat 125) with
  | some i, some k =>
    let j := cs.length - 1 - k
    if i ≤ j then some (String.mk ((cs.drop i).take (j + 1 - i))) else none
  | _, _ => none

/-- analyzeDocument of aiService.js. `hasApiKey` is whether
process.env.GEMINI_API_KEY is set, `backend` the outcome of the Gemini
call, `parseJson` an abstract JSON.parse producing an analysis object or
failing. Throws from the key check and the backend call reach the outer
catch; a missing match or a parse failure is handled by the inner catch. -/
def analyzeDocument (hasApiKey : Bool) (backend : Except String String)
    (parseJson : String → Option Analysis) : Analysis :=
  if !hasApiKey then aiErrorDefault
  else
    match backend with
    | Except.error _ => aiErrorDefault
    | Except.ok responseText =>
      match jsonMatch responseText with
      | none => aiParseDefault
      | some jsonStr =>
        match parseJson jsonStr with
        | some a => a
        | none => aiParseDefault

/-- calculatePriority of aiService.js, with the clock made explicit. The
JS truthiness guard (data.amount && data.amount > k) is written
k < data.amount.getD 0: both thresholds are positive, so a missing or
zero amount fails the comparison exactly when the guard is falsy. -/
def calculatePriority (data : Analysis) (now : Int) : String :=
  if data.dueDate = none ∧ data.expiryDate = none then "LOW"
  else
    let targetDate : Int := (data.dueDate.orElse (fun _ => data.expiryDate)).getD 0
    let daysUntil : Int := jsCeilDiv (targetDate - now) msPerDay
    if daysUntil ≤ 7 ∨ 10000 < data.amount.getD 0 then "HIGH"
    else if daysUntil ≤ 30 ∨ 1000 < data.amount.getD 0 then "MEDIUM"
    else "LOW"

/-- The HIGH/MEDIUM/LOW rule as the spec words it: LOW when no relevant
date exists regardless of amount; otherwise HIGH when the selected date is
at most 7 days out or the amount exceeds 10000, MEDIUM when it is at most
30 days out or the amount lies in (1000, 10000], LOW otherwise. Written
from the spec, to be compared with calculatePriority. -/
def derivePrioritySpec (dueDate expiryDate amount : Option Int) (now : Int) : String :=
  match dueDate.orElse (fun _ => expiryDate) with
  | none => "LOW"
  | some t =>
    let daysOut := jsCeilDiv (t - now) msPerDay
    let amt := amount.getD 0
    if daysOut ≤ 7 ∨ 10000 < amt then "HIGH"
    else if daysOut ≤ 30 ∨ (1000 < amt ∧ amt ≤ 10000) then "MEDIUM"
    else "LOW"

/-- The multer upload already placed on disk: req.file. -/
structure UploadedFile where
  path : String
  originalname : String
deriving DecidableEq

/-- The request as uploadDocument sees it: the optional file and the
authenticated user's id (req.user.id). -/
structure Request where
  file : Option UploadedFile
  userId : String
deriving DecidableEq

/-- The persisted extractedData sub-document of a Document record
(documentController.js STEP 3). -/
structure ExtractedData where
  dueDate : Option Int
  expiryDate : Option Int
  issueDate : Option Int
  amount : Option Int
  idNumber : Option String
  provider : Option String
  rawText : String
  summary : String
deriving DecidableEq

/-- A persisted Document record (models/Document.js fields used by the
pipeline; `id` stands for the Mongo _id). -/
structure DocRecord where
  id : Nat
  user : String
  fileName : String
  fileUrl : String
  documentType : String
  category : String
  extractedData : ExtractedData
  priority : String
  status : String
deriving DecidableEq

/-- A persisted Reminder record (models/Reminder.js fields set by
uploadDocument). -/
structure RemRecord where
  user : String
  document : Nat
  title : String
  description : String
  reminderDate : Int
  reminderType : String
  status : String
deriving DecidableEq

/-- The externally visible world: the document store, the reminder store,
and the set of file paths existing on disk. -/
structure St where
  documents : List DocRecord
  reminders : List RemRecord
  files : List String
deriving DecidableEq

/-- Outcomes of the external calls of one request: the Tesseract
recognition, the analyzeDocument call (an Except so the controller's own
catch is exercised), the fresh Mongo id for the new Document, and the
request's clock. -/
structure Env where
  recognize : Except String String
  analysisResult : Except String Analysis
  newDocId : Nat
  now : Int

/-- Injected persistence outcomes: whether document.save() succeeds and
whether the n-th reminder.save() of the request succeeds. -/
structure Faults where
  docSaveOk : Bool
  remSaveOk : Nat → Bool

/-- The slice of the HTTP response the claims talk about. -/
structure Response where
  status : Nat
  success : Bool
  message : String
  remindersCreated : Option Nat
deriving DecidableEq

/-- fs.unlinkSync guarded by fs.existsSync: afterwards the path no longer
exists. -/
def deleteFile (s : St) (p : String) : St :=
  { s with files := s.files.filter (fun q => q != p) }

def noFileResponse : Response :=
  { status := 400, success := false, message := "No file uploaded",
    remindersCreated := none }

def extractFailResponse : Response :=
  { status := 400, success := false,
    message := "Could not extract text from image. Please ensure the image is clear and contains readable text.",
    remindersCreated := none }

def serverErrorResponse : Response :=
  { status := 500, success := false, message := "Error processing document",
    remindersCreated := none }

def successResponse (n : Nat) : Response :=
  { status := 201, success := true,
    message := "Document uploaded and analyzed successfully",
    remindersCreated := some n }

/-- The literal default the controller substitutes when analyzeDocument
throws (documentController.js STEP 2 catch); its object has no date,
amount, idNumber or provider keys, so those read as undefined. -/
def controllerDefaultAnalysis : Analysis :=
  { documentType := some "other", category := some "Personal",
    dueDate := none, expiryDate := none, issueDate := none,
    amount := none, idNumber := none, provider := none,
    priority := some "MEDIUM",
    summary := some "Document uploaded - analysis incomplete" }

/-- STEP 2 of uploadDocument: the try/catch around analyzeDocument. -/
def analysisOrDefault : Except String Analysis → Analysis
  | Except.ok a => a
  | Except.error _ => controllerDefaultAnalysis

/-- The extractedData object of STEP 3: every analysis field passes
through `|| null` (dates are kept as present exactly when the analysis
carried them, since a present date string is nonempty hence truthy), and
summary falls back to "Document uploaded". -/
def mkExtractedData (analysis : Analysis) (extractedText : String) : ExtractedData :=
  { dueDate := analysis.dueDate
    expiryDate := analysis.expiryDate
    issueDate := analysis.issueDate
    amount := orNullInt analysis.amount
    idNumber := orNullStr analysis.idNumber
    provider := orNullStr analysis.provider
    rawText := extractedText
    summary := orElseStr analysis.summary "Document uploaded" }

/-- The Document record built in STEP 3. -/
def mkDocRecord (docId : Nat) (userId : String) (file : UploadedFile)
    (analysis : Analysis) (extractedText : String) : DocRecord :=
  { id := docId, user := userId,
    fileName := file.originalname, fileUrl := file.path,
    documentType := orElseStr analysis.documentType "other",
    category := orElseStr analysis.category "Personal",
    extractedData := mkExtractedData analysis extractedText,
    priority := orElseStr analysis.priority "MEDIUM",
    status := "ACTIVE" }

/-- The due-date Reminder of STEP 4. -/
def dueReminderSpec (userId : String) (docId : Nat) (originalname : String)
    (a : Analysis) (d : Int) : RemRecord :=
  { user := userId, document := docId,
    title := jsShowOpt a.documentType ++ " Payment Due",
    description := orElseStr a.summary (originalname ++ " payment is due"),
    reminderDate := d, reminderType := "DUE_DATE", status := "PENDING" }

/-- The 7-days-before advance Reminder of STEP 4. -/
def advanceDueSpec (userId : String) (docId : Nat) (originalname : String)
    (a : Analysis) (d : Int) : RemRecord :=
  { user := userId, document := docId,
    title := "Upcoming: " ++ jsShowOpt a.documentType ++ " Payment",
    description := "Reminder: " ++ orElseStr a.summary originalname ++ " due in 7 days",
    reminderDate := d - 7 * msPerDay, reminderType := "DUE_DATE", status := "PENDING" }

/-- The expiry Reminder of STEP 4. -/
def expiryReminderSpec (userId : String) (docId : Nat) (originalname : String)
    (a : Analysis) (e : Int) : RemRecord :=
  { user := userId, document := docId,
    title := jsShowOpt a.documentType ++ " Expiring Soon",
    description := orElseStr a.summary (originalname ++ " is expiring"),
    reminderDate := e, reminderType := "EXPIRY", status := "PENDING" }

/-- The 30-days-before renewal Reminder of STEP 4. -/
def renewalReminderSpec (userId : String) (docId : Nat) (originalname : String)
    (a : Analysis) (e : Int) : RemRecord :=
  { user := userId, document := docId,
    title := "Renewal Reminder: " ++ jsShowOpt a.documentType,
    description := orElseStr a.summary originalname ++ " expires in 30 days - consider renewal",
    reminderDate := e - 30 * msPerDay, reminderType := "RENEWAL", status := "PENDING" }

/-- STEP 4 of uploadDocument as the sequence of Reminder documents it
constructs, in construction order: due, advance-due (only when
dueDate − 7 days > now), expiry, renewal (only when
expiryDate − 30 days > now). -/
def genReminderSpecs (userId : String) (docId : Nat) (originalname : String)
    (a : Analysis) (now : Int) : List RemRecord :=
  (match a.dueDate with
   | none => []
   | some d =>
     dueReminderSpec userId docId originalname a d ::
       (if d - 7 * msPerDay > now then [advanceDueSpec userId docId originalname a d] else []))
  ++
  (match a.expiryDate with
   | none => []
   | some e =>
     expiryReminderSpec userId docId originalname a e ::
       (if e - 30 * msPerDay > now then [renewalReminderSpec userId docId originalname a e] else []))

/-- Sequential reminder.save() calls: each save either succeeds (the
record is persisted and the loop continues) or throws, ending the loop
with the records saved so far and an exception flag (false in the second
component). -/
def saveRemindersLoop (ok : Nat → Bool) : Nat → List RemRecord → List RemRecord × Bool
  | _, [] => ([], true)
  | n, r :: rs =>
    if ok n then
      let rest := saveRemindersLoop ok (n + 1) rs
      (r :: rest.1, rest.2)
    else ([], false)

/-- STEP 1's insufficient-text gate inside uploadDocument's OCR try:
a throw from extractTextFromImage, or cleaned text that is falsy or
shorter than 10 characters, is the error the catch receives. -/
def gatedExtract (path : String) (fileEx : Bool)
    (recognize : Except String String) : Except String String :=
  match extractTextFromImage path fileEx recognize with
  | Except.error e => Except.error e
  | Except.ok t =>
    if t = "" ∨ t.length < 10 then
      Except.error "Insufficient text extracted from image"
    else Except.ok t

/-- STEPs 2–5 of uploadDocument, after extraction succeeded. A failing
document.save() or reminder.save() throws to the outer catch, which
deletes the uploaded file and answers 500; saves already performed are
not rolled back. -/
def afterExtract (file : UploadedFile) (userId : String) (extractedText : String)
    (env : Env) (f : Faults) (s0 : St) : Response × St :=
  let analysis := analysisOrDefault env.analysisResult
  let doc := mkDocRecord env.newDocId userId file analysis extractedText
  if f.docSaveOk then
    let s1 : St := { s0 with documents := s0.documents ++ [doc] }
    let specs := genReminderSpecs userId env.newDocId file.originalname analysis env.now
    let sv := saveRemindersLoop f.remSaveOk 0 specs
    let s2 : St := { s1 with reminders := s1.reminders ++ sv.1 }
    if sv.2 then (successResponse specs.length, s2)
    else (serverErrorResponse, deleteFile s2 file.path)
  else (serverErrorResponse, deleteFile s0 file.path)

/-- uploadDocument of documentController.js over the explicit world. -/
def uploadDocument (req : Request) (env : Env) (f : Faults) (s0 : St) : Response × St :=
  match req.file with
  | none => (noFileResponse, s0)
  | some file =>
    match gatedExtract file.path (s0.files.contains file.path) env.recognize with
    | Except.error _ => (extractFailResponse, deleteFile s0 file.path)
    | Except.ok extractedText => afterExtract file req.userId extractedText env f s0

/-- A concrete upload used to instantiate the theorems. -/
def fileA : UploadedFile := { path := "uploads/a.png", originalname := "a.png" }

/-- The concrete request carrying fileA. -/
def reqA : Request := { file := some fileA, userId := "user1" }

/-- The initial world: empty stores, fileA already on disk. -/
def stA : St := { documents := [], reminders := [], files := ["uploads/a.png"] }

/-- A concrete analysis with a due date 20 days out. -/
def analysisBill : Analysis :=
  { documentType := some "bill", category := some "Financial",
    dueDate := some (20 * msPerDay), expiryDate := none, issueDate := none,
    amount := some 2500, idNumber := none, provider := none,
    priority := some "MEDIUM", summary := some "Electricity bill" }

/-- Concrete external outcomes: recognition succeeds with 12 characters,
analysis succeeds with analysisBill, the clock reads 0. -/
def envA : Env :=
  { recognize := Except.ok "0123456789ab", analysisResult := Except.ok analysisBill,
    newDocId := 1, now := 0 }

/-- Concrete outcomes where recognition yields only 3 characters. -/
def envShort : Env :=
  { recognize := Except.ok "abc", analysisResult := Except.ok analysisBill,
    newDocId := 1, now := 0 }

/-- All saves succeed. -/
def noFaults : Faults := { docSaveOk := true, remSaveOk := fun _ => true }

/-- The document save succeeds but every reminder save throws. -/
def failRem : Faults := { docSaveOk := true, remSaveOk := fun _ => false }

/-- A concrete analysis with an expiry date 45 days out and no due date. -/
def analysisIns : Analysis :=
  { documentType := some "insurance", category := some "Financial",
    dueDate := none, expiryDate := some (45 * msPerDay), issueDate := none,
    amount := none, idNumber := none, provider := none,
    priority := some "MEDIUM", summary := some "Insurance policy" }

/-- What the Analyzer failure policy promises of its result: the default
classification, every extracted field null, and a non-empty summary. -/
def defaultedAnalysis (r : Analysis) : Prop :=
  r.documentType = some "other" ∧ r.category = some "Personal" ∧
  r.priority = some "MEDIUM" ∧
  r.dueDate = none ∧ r.expiryDate = none ∧ r.issueDate = none ∧
  r.amount = none ∧ r.idNumber = none ∧ r.provider = none ∧
  r.summary ≠ none ∧ r.summary ≠ some ""

/-- Records the loop persists are records it was given. -/
theorem saveRemindersLoop_subset (ok : Nat → Bool) (r : RemRecord) :
    ∀ (n : Nat) (l : List RemRecord), r ∈ (saveRemindersLoop ok n l).1 → r ∈ l := by
  intro n l
  induction l generalizing n with
  | nil => intro h; simp [saveRemindersLoop] at h
  | cons a as ih =>
    intro h
    by_cases hok : ok n
    · simp [saveRemindersLoop, hok] at h
      rcases h with h | h
      · exact h ▸ List.mem_cons_self a as
      · exact List.mem_cons_of_mem a (ih (n + 1) h)
    · simp [saveRemindersLoop, hok] at h

/-- Every generated reminder spec carries the fresh document id and the
requesting user. -/
theorem genReminderSpecs_owner (u : String) (docId : Nat) (orig : String)
    (a : Analysis) (now : Int) :
    ∀ r ∈ genReminderSpecs u docId orig a now, r.document = docId ∧ r.user = u := by
  unfold genReminderSpecs
  intro r hr
  rcases List.mem_append.1 hr with h | h
  · rcases hd : a.dueDate with _ | d
    · rw [hd] at h; cases h
    · rw [hd] at h
      rcases List.mem_cons.1 h with rfl | h
      · exact ⟨rfl, rfl⟩
      · split_ifs at h with hc
        · rcases List.mem_singleton.1 h with rfl
          exact ⟨rfl, rfl⟩
        · cases h
  · rcases he : a.expiryDate with _ | e
    · rw [he] at h; cases h
    · rw [he] at h
      rcases List.mem_cons.1 h with rfl | h
      · exact ⟨rfl, rfl⟩
      · split_ifs at h with hc
        · rcases List.mem_singleton.1 h with rfl
          exact ⟨rfl, rfl⟩
        · cases h

/-- When the cleaned text comes back shorter than 10 characters the upload
is rejected with 400, nothing is persisted, and the file is removed. -/
theorem upload_insufficient_text (req : Request) (env : Env) (f : Faults) (s0 : St)
    (file : UploadedFile) (t : String)
    (hfile : req.file = some file)
    (hocr : extractTextFromImage file.path (s0.files.contains file.path) env.recognize = Except.ok t)
    (hlen : t.length < 10) :
    (uploadDocument req env f s0).1.status = 400 ∧
    (uploadDocument req env f s0).1.success = false ∧
    (uploadDocument req env f s0).2.documents = s0.documents ∧
    (uploadDocument req env f s0).2.reminders = s0.reminders ∧
    file.path ∉ (uploadDocument req env f s0).2.files := by
  have hg : gatedExtract file.path (s0.files.contains file.path) env.recognize =
      Except.error "Insufficient text extracted from image" := by
    unfold gatedExtract
    rw [hocr]
    simp [hlen]
  unfold uploadDocument
  simp only [hfile, hg]
  refine ⟨rfl, rfl, rfl, rfl, ?_⟩
  simp [deleteFile, List.mem_filter]

/-- C1: for every analysis with a due date present, the reminder
generation step emits a DUE_DATE reminder dated dueDate titled
"documentType Payment Due", and a second DUE_DATE reminder dated
dueDate minus 7 days titled "Upcoming: documentType Payment" exactly when
dueDate minus 7 days is later than now; a due date 20 days out yields two
DUE_DATE reminders and a due date 3 days out yields one. -/
theorem C1_due_date_reminders (u : String) (docId : Nat) (orig : String)
    (a : Analysis) (now d : Int) (dt : String)
    (hd : a.dueDate = some d) (hdt : a.documentType = some dt) :
    ((genReminderSpecs u docId orig a now).filter (fun r => r.reminderType == "DUE_DATE") =
      if d - 7 * msPerDay > now
      then [dueReminderSpec u docId orig a d, advanceDueSpec u docId orig a d]
      else [dueReminderSpec u docId orig a d]) ∧
    (dueReminderSpec u docId orig a d).reminderDate = d ∧
    (dueReminderSpec u docId orig a d).title = dt ++ " Payment Due" ∧
    (advanceDueSpec u docId orig a d).reminderDate = d - 7 * msPerDay ∧
    (advanceDueSpec u docId orig a d).title = "Upcoming: " ++ dt ++ " Payment" ∧
    (d = now + 20 * msPerDay →
      ((genReminderSpecs u docId orig a now).filter
        (fun r => r.reminderType == "DUE_DATE")).length = 2) ∧
    (d = now + 3 * msPerDay →
      ((genReminderSpecs u docId orig a now).filter
        (fun r => r.reminderType == "DUE_DATE")).length = 1) := by
  have hmain : (genReminderSpecs u docId orig a now).filter
      (fun r => r.reminderType == "DUE_DATE") =
      if d - 7 * msPerDay > now
      then [dueReminderSpec u docId orig a d, advanceDueSpec u docId orig a d]
      else [dueReminderSpec u docId orig a d] := by
    unfold genReminderSpecs
    rw [hd]
    rcases he : a.expiryDate with _ | e
    · by_cases hc : d - 7 * msPerDay > now <;>
        simp [hc, dueReminderSpec, advanceDueSpec, List.filter_append]
    · by_cases hc : d - 7 * msPerDay > now <;>
        by_cases hce : e - 30 * msPerDay > now <;>
        simp [hc, hce, dueReminderSpec, advanceDueSpec, expiryReminderSpec,
          renewalReminderSpec, List.filter_append]
  refine ⟨hmain, rfl, ?_, rfl, ?_, ?_, ?_⟩
  · simp [dueReminderSpec, jsShowOpt, hdt]
  · simp [advanceDueSpec, jsShowOpt, hdt]
  · intro h20
    rw [hmain, if_pos (by simp only [msPerDay] at *; omega)]
    rfl
  · intro h3
    rw [hmain, if_neg (by simp only [msPerDay] at *; omega)]
    rfl

/-- C1 witness: with the concrete bill analysis whose due date is 20 days
after the clock, exactly two DUE_DATE reminders are generated. -/
theorem C1_due_date_reminders_witness :
    ((genReminderSpecs "user1" 1 "a.png" analysisBill 0).filter
      (fun r => r.reminderType == "DUE_DATE")).length = 2 :=
  (C1_due_date_reminders "user1" 1 "a.png" analysisBill 0 (20 * msPerDay) "bill"
    rfl rfl).2.2.2.2.2.1 (zero_add (20 * msPerDay)).symm

/-- C2: for every analysis with an expiry date present, the reminder
generation step emits an EXPIRY reminder dated expiryDate titled
"documentType Expiring Soon", and a RENEWAL reminder dated expiryDate
minus 30 days titled "Renewal Reminder: documentType" exactly when
expiryDate minus 30 days is later than now; an expiry 45 days out with no
due date yields exactly one EXPIRY reminder at 45 days and one RENEWAL
reminder at 15 days. -/
theorem C2_expiry_reminders (u : String) (docId : Nat) (orig : String)
    (a : Analysis) (now e : Int) (dt : String)
    (he : a.expiryDate = some e) (hdt : a.documentType = some dt) :
    ((genReminderSpecs u docId orig a now).filter (fun r => r.reminderType == "EXPIRY") =
      [expiryReminderSpec u docId orig a e]) ∧
    ((genReminderSpecs u docId orig a now).filter (fun r => r.reminderType == "RENEWAL") =
      if e - 30 * msPerDay > now then [renewalReminderSpec u docId orig a e] else []) ∧
    (expiryReminderSpec u docId orig a e).reminderDate = e ∧
    (expiryReminderSpec u docId orig a e).title = dt ++ " Expiring Soon" ∧
    (renewalReminderSpec u docId orig a e).reminderDate = e - 30 * msPerDay ∧
    (renewalReminderSpec u docId orig a e).title = "Renewal Reminder: " ++ dt ∧
    (a.dueDate = none → e = now + 45 * msPerDay →
      genReminderSpecs u docId orig a now =
        [expiryReminderSpec u docId orig a e, renewalReminderSpec u docId orig a e] ∧
      (expiryReminderSpec u docId orig a e).reminderDate = now + 45 * msPerDay ∧
      (renewalReminderSpec u docId orig a e).reminderDate = now + 15 * msPerDay) := by
  have hexp : (genReminderSpecs u docId orig a now).filter
      (fun r => r.reminderType == "EXPIRY") = [expiryReminderSpec u docId orig a e] := by
    unfold genReminderSpecs
    rw [he]
    rcases hdd : a.dueDate with _ | d
    · by_cases hce : e - 30 * msPerDay > now <;>
        simp [hce, expiryReminderSpec, renewalReminderSpec, List.filter_append]
    · by_cases hc : d - 7 * msPerDay > now <;>
        by_cases hce : e - 30 * msPerDay > now <;>
        simp [hc, hce, dueReminderSpec, advanceDueSpec, expiryReminderSpec,
          renewalReminderSpec, List.filter_append]
  have hren : (genReminderSpecs u docId orig a now).filter
      (fun r => r.reminderType == "RENEWAL") =
      if e - 30 * msPerDay > now then [renewalReminderSpec u docId orig a e] else [] := by
    unfold genReminderSpecs
    rw [he]
    rcases hdd : a.dueDate with _ | d
    · by_cases hce : e - 30 * msPerDay > now <;>
        simp [hce, expiryReminderSpec, renewalReminderSpec, List.filter_append]
    · by_cases hc : d - 7 * msPerDay > now <;>
        by_cases hce : e - 30 * msPerDay > now <;>
        simp [hc, hce, dueReminderSpec, advanceDueSpec, expiryReminderSpec,
          renewalReminderSpec, List.filter_append]
  refine ⟨hexp, hren, rfl, ?_, rfl, ?_, ?_⟩
  · simp [expiryReminderSpec, jsShowOpt, hdt]
  · simp [renewalReminderSpec, jsShowOpt, hdt]
  · intro hdd h45
    refine ⟨?_, ?_, ?_⟩
    · unfold genReminderSpecs
      rw [hdd, he]
      have hce : e - 30 * msPerDay > now := by simp only [msPerDay] at *; omega
      simp [hce]
    · simp [expiryReminderSpec, h45]
    · simp only [renewalReminderSpec]
      rw [h45]
      simp only [msPerDay]
      ring

/-- C2 witness: with the concrete insurance analysis whose expiry date is
45 days after the clock and no due date, the generated sequence is exactly
the EXPIRY reminder at 45 days followed by the RENEWAL reminder at 15
days. -/
theorem C2_expiry_reminders_witness :
    genReminderSpecs "user1" 1 "a.png" analysisIns 0 =
      [expiryReminderSpec "user1" 1 "a.png" analysisIns (45 * msPerDay),
       renewalReminderSpec "user1" 1 "a.png" analysisIns (45 * msPerDay)] :=
  ((C2_expiry_reminders "user1" 1 "a.png" analysisIns 0 (45 * msPerDay) "insurance"
    rfl rfl).2.2.2.2.2.2 rfl (zero_add (45 * msPerDay)).symm).1

/-- C3: for every failure mode of the Analyzer backend — missing
credential, backend error, or a response whose first-to-last-brace slice
does not parse — analyzeDocument returns the complete defaulted analysis
(documentType other, category Personal, priority MEDIUM, all extracted
fields null, non-empty summary) instead of propagating an error. -/
theorem C3_analyzer_defaults_on_failure (hasApiKey : Bool)
    (backend : Except String String) (parseJson : String → Option Analysis)
    (h : hasApiKey = false ∨ (∃ e, backend = Except.error e) ∨
      ∃ t, backend = Except.ok t ∧ (jsonMatch t).bind parseJson = none) :
    defaultedAnalysis (analyzeDocument hasApiKey backend parseJson) := by
  have h1 : defaultedAnalysis aiErrorDefault := by unfold defaultedAnalysis; decide
  have h2 : defaultedAnalysis aiParseDefault := by unfold defaultedAnalysis; decide
  rcases h with h | ⟨e, rfl⟩ | ⟨t, rfl, hp⟩
  · subst h
    exact h1
  · cases hasApiKey
    · exact h1
    · exact h1
  · cases hasApiKey
    · exact h1
    · rcases hj : jsonMatch t with _ | s
      · unfold analyzeDocument
        simp only [hj, Bool.not_true, Bool.false_eq_true, if_false]
        exact h2
      · rw [hj] at hp
        simp only [Option.some_bind] at hp
        unfold analyzeDocument
        simp only [hj, hp, Bool.not_true, Bool.false_eq_true, if_false]
        exact h2

/-- C3 witness: with the credential missing, the analyzer still returns
the complete defaulted analysis. -/
theorem C3_analyzer_defaults_on_failure_witness :
    defaultedAnalysis (analyzeDocument false (Except.ok "x") (fun _ => none)) :=
  C3_analyzer_defaults_on_failure false (Except.ok "x") (fun _ => none) (Or.inl rfl)

/-- C4 counterexample: with the document saved and the first reminder save
failing, the request does not succeed — it answers 500 — and the stored
file is deleted by the catch-all cleanup, contradicting the claim that the
failure is only reflected in a lower remindersCreated count and that the
stored file is not deleted. The Document itself does remain persisted. -/
theorem C4_counterexample :
    (uploadDocument reqA envA failRem stA).1.status = 500 ∧
    (uploadDocument reqA envA failRem stA).1.success = false ∧
    (uploadDocument reqA envA failRem stA).1.remindersCreated = none ∧
    (uploadDocument reqA envA failRem stA).2.documents.length = 1 ∧
    "uploads/a.png" ∉ (uploadDocument reqA envA failRem stA).2.files := by
  decide

/-- C4 amended: if a reminder save fails after the Document has been
persisted, uploadDocument fails the whole request with HTTP 500 and no
remindersCreated count; the persisted Document is not rolled back and
reminders saved before the failure are kept, but the stored file is
deleted by the catch-all cleanup. -/
theorem C4_reminder_failure_fails_request (req : Request) (env : Env)
    (f : Faults) (s0 : St) (file : UploadedFile) (t : String)
    (hfile : req.file = some file)
    (hext : gatedExtract file.path (s0.files.contains file.path) env.recognize = Except.ok t)
    (hdoc : f.docSaveOk = true)
    (hfail : (saveRemindersLoop f.remSaveOk 0
        (genReminderSpecs req.userId env.newDocId file.originalname
          (analysisOrDefault env.analysisResult) env.now)).2 = false) :
    (uploadDocument req env f s0).1.status = 500 ∧
    (uploadDocument req env f s0).1.success = false ∧
    (uploadDocument req env f s0).1.remindersCreated = none ∧
    (∃ d ∈ (uploadDocument req env f s0).2.documents,
      d.id = env.newDocId ∧ d.user = req.userId) ∧
    file.path ∉ (uploadDocument req env f s0).2.files ∧
    (uploadDocument req env f s0).2.reminders =
      s0.reminders ++ (saveRemindersLoop f.remSaveOk 0
        (genReminderSpecs req.userId env.newDocId file.originalname
          (analysisOrDefault env.analysisResult) env.now)).1 := by
  unfold uploadDocument afterExtract
  simp only [hfile, hext, hdoc, hfail, if_true, Bool.false_eq_true, if_false]
  refine ⟨rfl, rfl, rfl, ?_, ?_, rfl⟩
  · exact ⟨mkDocRecord env.newDocId req.userId file (analysisOrDefault env.analysisResult) t,
      by simp [deleteFile], by simp [mkDocRecord]⟩
  · simp [deleteFile, List.mem_filter]

/-- C4 witness: the amended statement at the concrete failing-reminder
scenario. -/
theorem C4_reminder_failure_fails_request_witness :
    (uploadDocument reqA envA failRem stA).1.status = 500 ∧
    (∃ d ∈ (uploadDocument reqA envA failRem stA).2.documents,
      d.id = 1 ∧ d.user = "user1") :=
  ⟨(C4_reminder_failure_fails_request reqA envA failRem stA fileA "0123456789ab"
      rfl rfl rfl rfl).1,
   (C4_reminder_failure_fails_request reqA envA failRem stA fileA "0123456789ab"
      rfl rfl rfl rfl).2.2.2.1⟩

/-- C5: whenever the cleaned OCR text is shorter than 10 characters,
uploadDocument fails with HTTP 400, creates no Document and no Reminder,
and the stored file no longer exists afterwards. -/
theorem C5_insufficient_text_rejected (req : Request) (env : Env) (f : Faults)
    (s0 : St) (file : UploadedFile) (t : String)
    (hfile : req.file = some file)
    (hocr : extractTextFromImage file.path (s0.files.contains file.path) env.recognize = Except.ok t)
    (hlen : t.length < 10) :
    (uploadDocument req env f s0).1.status = 400 ∧
    (uploadDocument req env f s0).1.success = false ∧
    (uploadDocument req env f s0).2.documents = s0.documents ∧
    (uploadDocument req env f s0).2.reminders = s0.reminders ∧
    file.path ∉ (uploadDocument req env f s0).2.files :=
  upload_insufficient_text req env f s0 file t hfile hocr hlen

/-- C5 witness: a 3-character OCR result is rejected with 400 and the file
is gone. -/
theorem C5_insufficient_text_rejected_witness :
    (uploadDocument reqA envShort noFaults stA).1.status = 400 ∧
    fileA.path ∉ (uploadDocument reqA envShort noFaults stA).2.files :=
  ⟨(C5_insufficient_text_rejected reqA envShort noFaults stA fileA "abc"
      rfl rfl (by decide)).1,
   (C5_insufficient_text_rejected reqA envShort noFaults stA fileA "abc"
      rfl rfl (by decide)).2.2.2.2⟩

/-- C6 counterexample: a recognizer result whose cleaned text has only 3
characters is returned normally by extractTextFromImage rather than
failing, refuting the claim that the extractor itself signals
ExtractionFailed on cleaned text shorter than 10 characters. -/
theorem C6_counterexample :
    extractTextFromImage "doc.png" true (Except.ok "abc") = Except.ok "abc" ∧
    ("abc" : String).length < 10 :=
  ⟨rfl, by decide⟩

/-- C6 amended: extractTextFromImage signals failure exactly for a missing
file or a recognizer error, and returns the cleaned text — however short —
otherwise; the fewer-than-10-characters gate is enforced by its caller
uploadDocument, which fails such an upload with HTTP 400. -/
theorem C6_extractor_failure_modes :
    (∀ (p : String) (r : Except String String),
      extractTextFromImage p false r =
        Except.error ("Failed to extract text from image: " ++
          ("Image file not found at path: " ++ p))) ∧
    (∀ (p e : String),
      extractTextFromImage p true (Except.error e) =
        Except.error ("Failed to extract text from image: " ++ e)) ∧
    (∀ (p raw : String),
      extractTextFromImage p true (Except.ok raw) = Except.ok (cleanText raw)) ∧
    (∀ (req : Request) (env : Env) (f : Faults) (s0 : St)
        (file : UploadedFile) (t : String),
      req.file = some file →
      extractTextFromImage file.path (s0.files.contains file.path) env.recognize = Except.ok t →
      t.length < 10 →
      (uploadDocument req env f s0).1.status = 400 ∧
      (uploadDocument req env f s0).1.success = false) := by
  refine ⟨fun p r => rfl, fun p e => rfl, fun p raw => rfl, ?_⟩
  intro req env f s0 file t hfile hocr hlen
  exact ⟨(upload_insufficient_text req env f s0 file t hfile hocr hlen).1,
    (upload_insufficient_text req env f s0 file t hfile hocr hlen).2.1⟩

/-- C6 witness: the amended statement at concrete inputs — a recognizer
error is wrapped and rethrown, and a short-text upload is answered 400. -/
theorem C6_extractor_failure_modes_witness :
    extractTextFromImage "a.png" true (Except.error "boom") =
      Except.error ("Failed to extract text from image: " ++ "boom") ∧
    (uploadDocument reqA envShort noFaults stA).1.status = 400 :=
  ⟨C6_extractor_failure_modes.2.1 "a.png" "boom",
   (C6_extractor_failure_modes.2.2.2 reqA envShort noFaults stA fileA "abc"
      rfl rfl (by decide)).1⟩

/-- C7: calculatePriority agrees everywhere with the spec rule: LOW when
both dates are absent regardless of amount; otherwise HIGH when the
selected date is at most 7 days out or the amount exceeds 10000, MEDIUM
when it is at most 30 days out or the amount lies in (1000, 10000], LOW
otherwise. -/
theorem C7_calculatePriority_rule (a : Analysis) (now : Int) :
    calculatePriority a now = derivePrioritySpec a.dueDate a.expiryDate a.amount now := by
  unfold calculatePriority derivePrioritySpec
  rcases hd : a.dueDate with _ | d <;> rcases he : a.expiryDate with _ | e <;>
    simp only [hd, he, Option.orElse, Option.getD] <;>
    simp <;>
    split_ifs <;> first | rfl | omega

/-- C8 counterexample: the same analysis input evaluated at two different
clock readings yields different priorities, refuting the claim that two
calls on identical input agree in any two runs — the function reads the
system clock. -/
theorem C8_counterexample :
    calculatePriority analysisBill (19 * msPerDay) = "HIGH" ∧
    calculatePriority analysisBill (-100 * msPerDay) = "MEDIUM" ∧
    calculatePriority analysisBill (19 * msPerDay) ≠
      calculatePriority analysisBill (-100 * msPerDay) := by
  decide

/-- C8 amended: calculatePriority is deterministic in the fields it reads
and the clock: two calls agreeing on dueDate, expiryDate, amount and the
current time return equal priorities; since it reads the system clock,
identical data at different times may yield different priorities. -/
theorem C8_deterministic_given_clock (a b : Analysis) (now now2 : Int)
    (hd : a.dueDate = b.dueDate) (he : a.expiryDate = b.expiryDate)
    (ha : a.amount = b.amount) (hn : now = now2) :
    calculatePriority a now = calculatePriority b now2 := by
  subst hn
  unfold calculatePriority
  rw [hd, he, ha]

/-- C8 witness: two analyses differing only in fields calculatePriority
does not read get the same priority at the same instant. -/
theorem C8_deterministic_given_clock_witness :
    calculatePriority analysisBill 0 =
      calculatePriority
        { analysisBill with documentType := none, summary := none } 0 :=
  C8_deterministic_given_clock analysisBill
    { analysisBill with documentType := none, summary := none } 0 0 rfl rfl rfl rfl

/-- C9: every Reminder present after an ingestion run was either already
in the store or references a Document that is persisted (and stays
persisted) with the same owning user; reminders are only created after the
Document save succeeded. -/
theorem C9_reminders_reference_persisted_document (req : Request) (env : Env)
    (f : Faults) (s0 : St) (r : RemRecord)
    (hr : r ∈ (uploadDocument req env f s0).2.reminders) :
    r ∈ s0.reminders ∨
    ∃ d ∈ (uploadDocument req env f s0).2.documents,
      d.id = r.document ∧ d.user = r.user := by
  rcases hfile : req.file with _ | file
  · unfold uploadDocument at hr
    rw [hfile] at hr
    exact Or.inl hr
  · unfold uploadDocument at hr ⊢
    simp only [hfile] at hr ⊢
    rcases hg : gatedExtract file.path (s0.files.contains file.path) env.recognize with e | t
    · simp only [hg] at hr ⊢
      exact Or.inl (by simpa [deleteFile] using hr)
    · simp only [hg] at hr ⊢
      unfold afterExtract at hr ⊢
      by_cases hdoc : f.docSaveOk
      · simp only [hdoc, if_true] at hr ⊢
        by_cases hsv : (saveRemindersLoop f.remSaveOk 0 (genReminderSpecs req.userId
            env.newDocId file.originalname (analysisOrDefault env.analysisResult) env.now)).2
        · simp only [hsv, if_true] at hr ⊢
          rcases List.mem_append.1 hr with h | h
          · exact Or.inl h
          · right
            have hsub := saveRemindersLoop_subset f.remSaveOk r 0 _ h
            have hown := genReminderSpecs_owner _ _ _ _ _ r hsub
            exact ⟨mkDocRecord env.newDocId req.userId file
                (analysisOrDefault env.analysisResult) t,
              by simp, by simp [mkDocRecord, hown.1], by simp [mkDocRecord, hown.2]⟩
        · simp only [hsv, Bool.false_eq_true, if_false] at hr ⊢
          rcases List.mem_append.1 (by simpa [deleteFile] using hr) with h | h
          · exact Or.inl h
          · right
            have hsub := saveRemindersLoop_subset f.remSaveOk r 0 _ h
            have hown := genReminderSpecs_owner _ _ _ _ _ r hsub
            exact ⟨mkDocRecord env.newDocId req.userId file
                (analysisOrDefault env.analysisResult) t,
              by simp [deleteFile], by simp [mkDocRecord, hown.1],
              by simp [mkDocRecord, hown.2]⟩
      · simp only [hdoc, Bool.false_eq_true, if_false] at hr ⊢
        exact Or.inl (by simpa [deleteFile] using hr)

/-- C9 witness: in the successful concrete run the due-date reminder
references the freshly persisted document of the same user. -/
theorem C9_reminders_reference_persisted_document_witness :
    dueReminderSpec "user1" 1 "a.png" analysisBill (20 * msPerDay) ∈ stA.reminders ∨
    ∃ d ∈ (uploadDocument reqA envA noFaults stA).2.documents,
      d.id = (dueReminderSpec "user1" 1 "a.png" analysisBill (20 * msPerDay)).document ∧
      d.user = (dueReminderSpec "user1" 1 "a.png" analysisBill (20 * msPerDay)).user :=
  C9_reminders_reference_persisted_document reqA envA noFaults stA
    (dueReminderSpec "user1" 1 "a.png" analysisBill (20 * msPerDay)) (by decide)

/-- C10: a zero amount — like any falsy analysis value — is persisted as
null in extractedData: the stored record is identical to one whose
analysis carried no amount at all. -/
theorem C10_zero_amount_becomes_null (a : Analysis) (text : String)
    (h : a.amount = some 0) :
    (mkExtractedData a text).amount = none ∧
    mkExtractedData a text = mkExtractedData { a with amount := none } text := by
  unfold mkExtractedData orNullInt
  rw [h]
  simp

/-- C10 witness: the concrete bill analysis with amount 0 is stored with a
null amount. -/
theorem C10_zero_amount_becomes_null_witness :
    (mkExtractedData { analysisBill with amount := some 0 } "raw").amount = none :=
  (C10_zero_amount_becomes_null { analysisBill with amount := some 0 } "raw" rfl).1

end LifeOS
